import Mathlib

/-!
Verification of the contracts module of the oasis-sdk repository.

This file embeds the sub-call dispatcher
(`runtime-sdk/modules/contracts/src/subcalls.rs`), the policy enforcement
(`runtime-sdk/modules/contracts/src/types.rs`), the transaction entry points
`tx_call` / `tx_instantiate` (`runtime-sdk/modules/contracts/src/lib.rs`) and
the contract message types (`contract-sdk/types/src/message.rs`) as executable
Lean definitions, and proves the specified properties about them.

External collaborators that are not part of the sources (the outer transaction
dispatcher, the wasm execution engine, the accounts subsystem and the core gas
module) are modelled from the specification as explicit oracles or small state
machines; each such definition carries a doc comment saying so.

Machine integers are modelled as `Nat`; where overflow is possible and
observable (u16 call depth, u64 saturating arithmetic, u64 identifiers) the
reduction `% 2^w` or `min _ (2^w - 1)` is written explicitly.
-/

namespace Contracts

/-- Opaque CBOR payload values. The dispatcher never inspects message or
result payloads, so they are modelled as an opaque wrapper. -/
inductive CborValue where
  | mk (n : Nat) : CborValue
deriving DecidableEq, Repr

/-- `NotifyReply` from contract-sdk/types/src/message.rs: when the emitting
contract wants to be notified of a reply. -/
inductive NotifyReply where
  | Never
  | OnError
  | OnSuccess
  | Always
deriving DecidableEq, Repr

/-- `Message` from contract-sdk/types/src/message.rs: messages emitted by
contracts, processed after contract execution completes. -/
inductive Message where
  | Call (id : Nat) (reply : NotifyReply) (method : String) (body : CborValue)
      (max_gas : Option Nat) : Message
deriving DecidableEq, Repr

/-- `CallResult` from contract-sdk/types/src/message.rs. -/
inductive CallResult where
  | Ok (value : CborValue)
  | Failed (module : String) (code : Nat)
deriving DecidableEq, Repr

/-- `CallResult::is_success` from contract-sdk/types/src/message.rs. -/
def CallResult.is_success : CallResult → Bool
  | .Ok _ => true
  | .Failed _ _ => false

/-- `Reply` from contract-sdk/types/src/message.rs: replies delivered back to
the emitting contract. -/
inductive Reply where
  | Call (id : Nat) (result : CallResult) : Reply
deriving DecidableEq, Repr

/-- Modelled from the spec: `transaction::CallResult`, the result type of the
external transaction dispatcher (`dispatch(method, body) -> CallResult`,
spec §1). Its `Failed` variant carries more fields than the contract-sdk
`CallResult`; the `From` impl in message.rs drops them with `..`. -/
inductive TxCallResult where
  | Ok (value : CborValue)
  | Failed (module : String) (code : Nat) (message : String)
deriving DecidableEq, Repr

/-- Success test on the dispatcher's result (`result.is_success()`). -/
def TxCallResult.is_success : TxCallResult → Bool
  | .Ok _ => true
  | .Failed _ _ _ => false

/-- The `From<transaction::CallResult> for CallResult` conversion in
contract-sdk/types/src/message.rs (drops the extra `Failed` fields). -/
def CallResult.ofTx : TxCallResult → CallResult
  | .Ok v => .Ok v
  | .Failed m c _ => .Failed m c

/-- `ExecutionOk` (spec §3): the structured payload a contract returns on
success — returned bytes plus emitted messages. -/
structure ExecutionOk where
  data : List Nat
  messages : List Message
deriving DecidableEq, Repr

/-- Modelled from the spec: runtime `Address` values. The derivation
`H(module_name ‖ id_be_u64)` uses an external hash; the hash is abstracted
as the tagged pair of its inputs. -/
structure Address where
  module_tag : String
  raw : List Nat
deriving DecidableEq, Repr

/-- Modelled from the spec: `Address::from_module_raw`. -/
def Address.from_module_raw (module : String) (raw : List Nat) : Address :=
  ⟨module, raw⟩

/-- `Policy` from runtime-sdk/modules/contracts/src/types.rs. -/
inductive Policy where
  | Nobody
  | Address (address : Address)
  | Everyone
deriving DecidableEq, Repr

/-- `ABI` from runtime-sdk/modules/contracts/src/types.rs. -/
inductive ABI where
  | OasisV1
deriving DecidableEq, Repr

/-- `Code` from runtime-sdk/modules/contracts/src/types.rs (the code hash is
an opaque digest, modelled as raw bytes). -/
structure Code where
  id : Nat
  hash : List Nat
  abi : ABI
  instantiate_policy : Policy
deriving DecidableEq, Repr

/-- `Instance` from runtime-sdk/modules/contracts/src/types.rs. -/
structure Instance where
  id : Nat
  code_id : Nat
  creator : Address
  upgrades_policy : Policy
deriving DecidableEq, Repr

/-- `MODULE_NAME` of the contracts module. -/
def MODULE_NAME : String := "contracts"

/-- Big-endian bytes of a u64 (`id.as_u64().to_be_bytes()`). -/
def u64_be_bytes (n : Nat) : List Nat :=
  [n / 2 ^ 56 % 256, n / 2 ^ 48 % 256, n / 2 ^ 40 % 256, n / 2 ^ 32 % 256,
   n / 2 ^ 24 % 256, n / 2 ^ 16 % 256, n / 2 ^ 8 % 256, n % 256]

/-- `Instance::address_for` from types.rs. -/
def Instance.address_for (id : Nat) : Address :=
  Address.from_module_raw MODULE_NAME (u64_be_bytes id)

/-- `Instance::address` from types.rs. -/
def Instance.address (i : Instance) : Address :=
  Instance.address_for i.id

/-- `GasCosts` from runtime-sdk/modules/contracts/src/lib.rs. -/
structure GasCosts where
  tx_upload : Nat
  tx_upload_per_byte : Nat
  tx_instantiate : Nat
  tx_call : Nat
  tx_upgrade : Nat
  subcall_dispatch : Nat
  wasm_storage_get_base : Nat
  wasm_storage_insert_base : Nat
  wasm_storage_remove_base : Nat
deriving DecidableEq, Repr

/-- `Parameters` from runtime-sdk/modules/contracts/src/lib.rs. -/
structure Parameters where
  max_code_size : Nat
  max_stack_size : Nat
  max_memory_pages : Nat
  max_subcall_depth : Nat
  max_subcall_count : Nat
  max_result_size_bytes : Nat
  gas_costs : GasCosts
deriving DecidableEq, Repr

/-- Modelled from the spec: the core gas module's out-of-gas error (code 12
under module `core`, spec §7); only this core error is relevant here. -/
inductive CoreError where
  | OutOfGas
deriving DecidableEq, Repr

/-- The `Error` enum of runtime-sdk/modules/contracts/src/lib.rs. Payloads
follow the source; `ExecutionFailed`'s `anyhow::Error` cause is a string, and
the transparent `Contract` re-export carries its wire module/code. -/
inductive Error where
  | InvalidArgument
  | CodeTooLarge (size : Nat) (max : Nat)
  | CodeMalformed
  | UnsupportedABI
  | CodeMissingRequiredExport (name : String)
  | CodeDeclaresReservedExport (name : String)
  | CodeDeclaresStartFunction
  | CodeDeclaresTooManyMemories
  | CodeNotFound
  | InstanceNotFound
  | ModuleLoadingFailed
  | ExecutionFailed (cause : String)
  | Forbidden
  | Unsupported
  | InsufficientCallerBalance
  | CallDepthExceeded (depth : Nat) (max : Nat)
  | ResultTooLarge (size : Nat) (max : Nat)
  | TooManySubcalls (count : Nat) (max : Nat)
  | Core (err : CoreError)
  | Contract (module : String) (code : Nat)
deriving DecidableEq, Repr

/-- A runtime tag emitted into the parent context (opaque key/value bytes). -/
structure Tag where
  key : List Nat
  value : List Nat
deriving DecidableEq, Repr

/-- Modelled from the spec: an emitted runtime message together with its hook
(`ctx.emit_message(msg, hook)`); both are opaque to the dispatcher. -/
structure RuntimeMessage where
  msg : Nat
  hook : Nat
deriving DecidableEq, Repr

/-- The contract key-value store visible to a context (opaque byte keys and
values). -/
def Store := List (List Nat × List Nat)
deriving DecidableEq, Repr

/-- `BaseUnits` (token amount plus denomination). -/
structure BaseUnits where
  amount : Nat
  denomination : String
deriving DecidableEq, Repr

/-- `wasm::Contract`: the code/instance pair an invocation runs against. -/
structure Contract where
  code_info : Code
  code : List Nat
  instance_info : Instance
deriving DecidableEq, Repr

/-- The mutable transaction context threaded through the module: remaining
gas (core gas module), the `contracts.CallDepth` context value, the store
overlay, emitted tags and runtime messages, the transaction caller, the
check-only flags, and the module state (balances, instances, codes). -/
structure Ctx where
  remaining_gas : Nat
  depth : Nat
  store : Store
  tags : List Tag
  messages : List RuntimeMessage
  caller : Address
  is_check_only : Bool
  expensive_queries_allowed : Bool
  balances : List (Address × String × Nat)
  instances : List (Nat × Instance)
  codes : List (Nat × Code)
  code_store : List (Nat × List Nat)
  next_instance_id : Nat
deriving DecidableEq, Repr

/-- `CONTEXT_KEY_DEPTH` from subcalls.rs: context key of the per-transaction
call depth counter (initially 0); `Ctx.depth` models the value stored under
this key. -/
def CONTEXT_KEY_DEPTH : String := "contracts.CallDepth"

/-- `Policy::enforce` from runtime-sdk/modules/contracts/src/types.rs. -/
def Policy.enforce (p : Policy) (ctx : Ctx) : Except Error Unit :=
  match p with
  | .Nobody => .error .Forbidden
  | .Address address => if address = ctx.caller then .ok () else .error .Forbidden
  | .Everyone => .ok ()

/-- Modelled from the spec: the core gas module hook (`use_gas(n)` /
`remaining_gas()`, spec §1); charging more than the remaining gas fails with
the core out-of-gas error and leaves the counter unchanged. -/
def use_tx_gas (ctx : Ctx) (gas : Nat) : Except Error Unit × Ctx :=
  if ctx.remaining_gas < gas then (.error (.Core .OutOfGas), ctx)
  else (.ok (), { ctx with remaining_gas := ctx.remaining_gas - gas })

/-- u64 `saturating_mul`. -/
def saturating_mul_u64 (a b : Nat) : Nat :=
  min (a * b) (2 ^ 64 - 1)

/-- `Call` from runtime-sdk/modules/contracts/src/types.rs: the body of a
`contracts.Call` transaction. -/
structure Call where
  id : Nat
  data : List Nat
  tokens : List BaseUnits
deriving DecidableEq, Repr

/-- `Instantiate` from runtime-sdk/modules/contracts/src/types.rs: the body
of a `contracts.Instantiate` transaction. -/
structure Instantiate where
  code_id : Nat
  upgrades_policy : Policy
  data : List Nat
  tokens : List BaseUnits
deriving DecidableEq, Repr

/-- `InstantiateResult` from types.rs. -/
structure InstantiateResult where
  id : Nat
deriving DecidableEq, Repr

/-- The input the sub-call dispatcher hands to the external transaction
dispatcher: the synthetic transaction built at subcalls.rs lines 86–113 — the
call `(method, body)`, the `Internal(contract.address)` signer, the child gas
limit (`fee.gas`), the child's `contracts.CallDepth` value and the store the
child context starts from. -/
structure DispatchInput where
  method : String
  body : CborValue
  caller : Address
  gas : Nat
  depth : Nat
  store : Store
deriving Repr

/-- Modelled from the spec: the observable outcome of the external dispatcher
running the synthetic transaction in the child context — its top-level
`CallResult`, the gas remaining in the child, the child's final store overlay
and the tags and runtime messages it emitted (spec §1, §4.D). -/
structure DispatchOutcome where
  result : TxCallResult
  remaining_gas : Nat
  store : Store
  tags : List Tag
  messages : List RuntimeMessage
deriving Repr

/-- The external collaborators of the contracts module, as oracles:
the outer transaction dispatcher (`dispatcher::Dispatcher::dispatch_tx_call`)
and the wasm execution engine entry points (`wasm::handle_reply`,
`wasm::call`, `wasm::instantiate`), none of which are part of the embedded
sources. -/
structure Env where
  dispatch : DispatchInput → DispatchOutcome
  handle_reply : Ctx → Parameters → Contract → Reply → Except Error ExecutionOk × Ctx
  wasm_call : Ctx → Parameters → Contract → Call → Except Error ExecutionOk × Ctx
  wasm_instantiate : Ctx → Parameters → Contract → Instantiate → Except Error ExecutionOk × Ctx

/-- Lines 77–83 of subcalls.rs: how much gas the child message can use —
`max_gas.unwrap_or(remaining_gas)` clamped to `remaining_gas`. -/
def child_gas_allowance (remaining_gas : Nat) (max_gas : Option Nat) : Nat :=
  let max_gas := max_gas.getD remaining_gas
  if max_gas > remaining_gas then remaining_gas else max_gas

/-- Lines 151–154 of subcalls.rs: the reply filtering match on
`(reply, result.is_success())`. -/
def should_notify : NotifyReply → Bool → Bool
  | .OnError, false => true
  | .OnSuccess, true => true
  | .Always, _ => true
  | _, _ => false

/-- Lines 76–148 of subcalls.rs: one sub-call — compute the child gas
allowance, run the synthetic transaction in a child context (the child's
`contracts.CallDepth` is set to `current_depth + 1`, u16), commit the child's
store overlay plus tags and runtime messages on success and discard them on
failure (lines 117–125, with the child-context commit semantics of spec §5),
charge the gas used inside the child against the parent (line 137), and
forward committed tags and runtime messages to the parent (lines 140–148,
where `emit_message` never fails because the child context was configured
within limits). -/
def process_subcall (env : Env) (contract : Contract) (current_depth : Nat)
    (ctx : Ctx) (method : String) (body : CborValue) (max_gas : Option Nat) :
    Except Error TxCallResult × Ctx :=
  let remaining_gas := ctx.remaining_gas
  let max_gas := child_gas_allowance remaining_gas max_gas
  let d := env.dispatch
    ⟨method, body, contract.instance_info.address, max_gas, (current_depth + 1) % 2 ^ 16, ctx.store⟩
  let gas := d.remaining_gas
  let (result, tags, messages) :=
    if d.result.is_success then (d.result, d.tags, d.messages)
    else (d.result, ([] : List Tag), ([] : List RuntimeMessage))
  let ctx := if d.result.is_success then { ctx with store := d.store } else ctx
  match use_tx_gas ctx (max_gas - gas) with
  | (.error e, ctx) => (.error e, ctx)
  | (.ok _, ctx) =>
    (.ok result, { ctx with tags := ctx.tags ++ tags, messages := ctx.messages ++ messages })

/-- Lines 155–167 of subcalls.rs: construct the reply envelope
`Reply::Call { id, result }`, deliver it to the emitting contract via
`wasm::handle_reply`, recursively process the resulting `ExecutionOk`
through the dispatcher (`pe_rec`), and overwrite the caller's `result_data`
with the reply's data when it is non-empty; `k` continues the message loop. -/
def deliver_reply (env : Env) (params : Parameters) (contract : Contract)
    (pe_rec : Ctx → ExecutionOk → Option (Except Error (List Nat) × Ctx))
    (id : Nat) (result : TxCallResult)
    (k : List Nat → Ctx → Option (Except Error (List Nat) × Ctx))
    (result_data : List Nat) (ctx : Ctx) : Option (Except Error (List Nat) × Ctx) :=
  match env.handle_reply ctx params contract (Reply.Call id (CallResult.ofTx result)) with
  | (.error e, ctx) => some (.error e, ctx)
  | (.ok reply_ok, ctx) =>
    match pe_rec ctx reply_ok with
    | none => none
    | some (.error e, ctx) => some (.error e, ctx)
    | some (.ok reply_result, ctx) =>
      k (if reply_result.isEmpty then result_data else reply_result) ctx

/-- Lines 66–173 of subcalls.rs: the message loop of
`process_execution_result`, processing emitted messages in order and folding
replies into `result_data`; `pe_rec` is the recursive dispatcher invocation
used for reply results. -/
def process_messages_with (env : Env) (params : Parameters) (contract : Contract)
    (pe_rec : Ctx → ExecutionOk → Option (Except Error (List Nat) × Ctx))
    (current_depth : Nat) :
    List Message → List Nat → Ctx → Option (Except Error (List Nat) × Ctx)
  | [], result_data, ctx => some (.ok result_data, ctx)
  | Message.Call id reply method body max_gas :: rest, result_data, ctx =>
    match process_subcall env contract current_depth ctx method body max_gas with
    | (.error e, ctx) => some (.error e, ctx)
    | (.ok result, ctx) =>
      if should_notify reply result.is_success then
        deliver_reply env params contract pe_rec id result
          (fun data ctx' =>
            process_messages_with env params contract pe_rec current_depth rest data ctx')
          result_data ctx
      else
        process_messages_with env params contract pe_rec current_depth rest result_data ctx

/-- `process_execution_result` from subcalls.rs: check the call depth
(lines 29–35, depth read from the `contracts.CallDepth` context value),
charge `subcall_dispatch` gas per emitted message with u64 saturating
multiplication (lines 44–51), bound the message count — a length that does
not fit in u16 reports `TooManySubcalls(u16::MAX, max)` (lines 53–64) — and
process the messages recursively. `fuel` bounds the recursion depth of the
embedding only; `none` means the fuel ran out. -/
def process_execution_result (env : Env) (params : Parameters) (contract : Contract) :
    Nat → Ctx → ExecutionOk → Option (Except Error (List Nat) × Ctx)
  | 0, _, _ => none
  | fuel + 1, ctx, result =>
    let current_depth := ctx.depth
    if result.messages ≠ [] ∧ params.max_subcall_depth ≤ current_depth then
      some (.error (.CallDepthExceeded ((current_depth + 1) % 2 ^ 16) params.max_subcall_depth), ctx)
    else
      let result_data := result.data
      match use_tx_gas ctx
          (saturating_mul_u64 params.gas_costs.subcall_dispatch result.messages.length) with
      | (.error e, ctx) => some (.error e, ctx)
      | (.ok _, ctx) =>
        if 2 ^ 16 - 1 < result.messages.length then
          some (.error (.TooManySubcalls (2 ^ 16 - 1) params.max_subcall_count), ctx)
        else if params.max_subcall_count < result.messages.length then
          some (.error (.TooManySubcalls result.messages.length params.max_subcall_count), ctx)
        else
          process_messages_with env params contract
            (fun ctx' result' => process_execution_result env params contract fuel ctx' result')
            current_depth result.messages result_data ctx

/-- First-match association-list lookup (models the typed store gets). -/
def lookup_assoc {α : Type} : List (Nat × α) → Nat → Option α
  | [], _ => none
  | (k, v) :: rest, key => if k = key then some v else lookup_assoc rest key

/-- `load_instance_info` from lib.rs: look up a stored `Instance`, failing
with `InstanceNotFound`. -/
def load_instance_info (ctx : Ctx) (instance_id : Nat) : Except Error Instance :=
  match lookup_assoc ctx.instances instance_id with
  | none => .error .InstanceNotFound
  | some i => .ok i

/-- `load_code_info` from lib.rs: look up stored `Code` metadata, failing
with `CodeNotFound`. -/
def load_code_info (ctx : Ctx) (code_id : Nat) : Except Error Code :=
  match lookup_assoc ctx.codes code_id with
  | none => .error .CodeNotFound
  | some c => .ok c

/-- `load_code` from lib.rs: look up the stored code bytes, failing with
`CodeNotFound`. -/
def load_code (ctx : Ctx) (code_id : Nat) : Except Error (List Nat) :=
  match lookup_assoc ctx.code_store code_id with
  | none => .error .CodeNotFound
  | some c => .ok c

/-- `store_instance_info` from lib.rs: persist instance metadata. -/
def store_instance_info (ctx : Ctx) (i : Instance) : Ctx :=
  { ctx with instances := (i.id, i) :: ctx.instances }

/-- Balance of an address in a denomination (first match, default 0). -/
def get_balance : List (Address × String × Nat) → Address → String → Nat
  | [], _, _ => 0
  | (a, d, v) :: rest, addr, den =>
    if a = addr ∧ d = den then v else get_balance rest addr den

/-- Update a balance (prepend; `get_balance` takes the first match). -/
def set_balance (b : List (Address × String × Nat)) (addr : Address) (den : String)
    (v : Nat) : List (Address × String × Nat) :=
  (addr, den, v) :: b

/-- Modelled from the spec: the external Accounts API
`transfer(from, to, amount) -> Result` (spec §1) — fails when the source
balance is insufficient, otherwise moves the amount between the two
accounts. -/
def Accounts.transfer (ctx : Ctx) (src dst : Address) (amount : BaseUnits) :
    Except Unit Ctx :=
  let b := get_balance ctx.balances src amount.denomination
  if b < amount.amount then .error ()
  else
    let bals := set_balance ctx.balances src amount.denomination (b - amount.amount)
    let bd := get_balance bals dst amount.denomination
    .ok { ctx with balances := set_balance bals dst amount.denomination (bd + amount.amount) }

/-- The token-transfer loops of `tx_instantiate` / `tx_call` in lib.rs:
transfer each attached amount from the caller to the instance address; any
failed transfer aborts with `InsufficientCallerBalance`. -/
def transfer_tokens (src dst : Address) :
    Ctx → List BaseUnits → Except Error Unit × Ctx
  | ctx, [] => (.ok (), ctx)
  | ctx, t :: rest =>
    match Accounts.transfer ctx src dst t with
    | .error _ => (.error .InsufficientCallerBalance, ctx)
    | .ok ctx => transfer_tokens src dst ctx rest

/-- The tail of `tx_call` in lib.rs after the token transfers: run the
guest's `call` entry point and process its execution result. -/
def call_guest (env : Env) (params : Parameters) (fuel : Nat) (contract : Contract)
    (body : Call) (ctx : Ctx) : Option (Except Error (List Nat) × Ctx) :=
  match env.wasm_call ctx params contract body with
  | (.error e, ctx) => some (.error e, ctx)
  | (.ok result, ctx) =>
    match process_execution_result env params contract fuel ctx result with
    | none => none
    | some (.error e, ctx) => some (.error e, ctx)
    | some (.ok data, ctx) => some (.ok data, ctx)

/-- `tx_call` from runtime-sdk/modules/contracts/src/lib.rs: charge the base
gas cost, stop early in fast-check mode, load the instance and its code,
transfer the attached tokens from the caller to the instance address, run the
guest's `call` entry point and process the execution result (the transparent
`types::CallResult` byte wrapper is elided). -/
def tx_call (env : Env) (params : Parameters) (fuel : Nat) (ctx : Ctx) (body : Call) :
    Option (Except Error (List Nat) × Ctx) :=
  let caller := ctx.caller
  match use_tx_gas ctx params.gas_costs.tx_call with
  | (.error e, ctx) => some (.error e, ctx)
  | (.ok _, ctx) =>
    if ctx.is_check_only && !ctx.expensive_queries_allowed then
      some (.ok [], ctx)
    else
      match load_instance_info ctx body.id with
      | .error e => some (.error e, ctx)
      | .ok instance_info =>
        match load_code_info ctx instance_info.code_id with
        | .error e => some (.error e, ctx)
        | .ok code_info =>
          match load_code ctx instance_info.code_id with
          | .error e => some (.error e, ctx)
          | .ok code =>
            match transfer_tokens caller instance_info.address ctx body.tokens with
            | (.error e, ctx) => some (.error e, ctx)
            | (.ok _, ctx) =>
              call_guest env params fuel ⟨code_info, code, instance_info⟩ body ctx

/-- The tail of `tx_instantiate` in lib.rs after the token transfers: run the
guest's `instantiate` entry point and process its execution result. -/
def instantiate_guest (env : Env) (params : Parameters) (fuel : Nat)
    (contract : Contract) (body : Instantiate) (ctx : Ctx) :
    Option (Except Error InstantiateResult × Ctx) :=
  match env.wasm_instantiate ctx params contract body with
  | (.error e, ctx) => some (.error e, ctx)
  | (.ok result, ctx) =>
    match process_execution_result env params contract fuel ctx result with
    | none => none
    | some (.error e, ctx) => some (.error e, ctx)
    | some (.ok _, ctx) => some (.ok ⟨contract.instance_info.id⟩, ctx)

/-- `tx_instantiate` from runtime-sdk/modules/contracts/src/lib.rs: charge
the base gas cost, stop early in fast-check mode, load the code metadata,
enforce the instantiation policy, load the code, assign the next instance
identifier (u64), store the instance metadata, transfer the attached tokens
from the creator to the new instance address, run the guest's `instantiate`
entry point and process the execution result. -/
def tx_instantiate (env : Env) (params : Parameters) (fuel : Nat) (ctx : Ctx)
    (body : Instantiate) : Option (Except Error InstantiateResult × Ctx) :=
  let creator := ctx.caller
  match use_tx_gas ctx params.gas_costs.tx_instantiate with
  | (.error e, ctx) => some (.error e, ctx)
  | (.ok _, ctx) =>
    if ctx.is_check_only && !ctx.expensive_queries_allowed then
      some (.ok ⟨0⟩, ctx)
    else
      match load_code_info ctx body.code_id with
      | .error e => some (.error e, ctx)
      | .ok code_info =>
        match code_info.instantiate_policy.enforce ctx with
        | .error e => some (.error e, ctx)
        | .ok _ =>
          match load_code ctx body.code_id with
          | .error e => some (.error e, ctx)
          | .ok code =>
            let id := ctx.next_instance_id
            let ctx := { ctx with next_instance_id := (id + 1) % 2 ^ 64 }
            let instance_info : Instance := ⟨id, body.code_id, creator, body.upgrades_policy⟩
            let ctx := store_instance_info ctx instance_info
            match transfer_tokens creator instance_info.address ctx body.tokens with
            | (.error e, ctx) => some (.error e, ctx)
            | (.ok _, ctx) =>
              instantiate_guest env params fuel ⟨code_info, code, instance_info⟩ body ctx

/-! ## Helper lemmas -/

theorem child_gas_allowance_le (r : Nat) (mg : Option Nat) :
    child_gas_allowance r mg ≤ r := by
  unfold child_gas_allowance
  cases mg <;> simp
  split <;> omega

theorem process_subcall_spec (env : Env) (contract : Contract) (cd : Nat) (ctx : Ctx)
    (method : String) (body : CborValue) (mg : Option Nat) (d : DispatchOutcome)
    (hd : env.dispatch ⟨method, body, contract.instance_info.address,
      child_gas_allowance ctx.remaining_gas mg, (cd + 1) % 2 ^ 16, ctx.store⟩ = d) :
    process_subcall env contract cd ctx method body mg =
      (.ok d.result,
       { ctx with
          store := if d.result.is_success then d.store else ctx.store,
          remaining_gas := ctx.remaining_gas -
            (child_gas_allowance ctx.remaining_gas mg - d.remaining_gas),
          tags := ctx.tags ++ (if d.result.is_success then d.tags else []),
          messages := ctx.messages ++
            (if d.result.is_success then d.messages else []) }) := by
  have hle := child_gas_allowance_le ctx.remaining_gas mg
  simp only [process_subcall, use_tx_gas]
  rw [hd]
  cases hs : d.result.is_success
  · simp [hs]
    rw [if_neg (by omega)]
  · simp [hs]
    rw [if_neg (by omega)]

/-! ## Claim theorems -/

/-- C9: `Policy::enforce` — the `Nobody` policy always returns `Forbidden`;
`Address(a)` returns `Ok` iff the transaction caller address equals `a` and
`Forbidden` otherwise; `Everyone` always returns `Ok`. -/
theorem C9_policy_enforce (ctx : Ctx) (a : Address) :
    Policy.enforce .Nobody ctx = .error .Forbidden ∧
    (Policy.enforce (.Address a) ctx = .ok () ↔ ctx.caller = a) ∧
    Policy.enforce (.Address a) ctx =
      (if a = ctx.caller then .ok () else .error .Forbidden) ∧
    Policy.enforce .Everyone ctx = .ok () := by
  refine ⟨rfl, ?_, rfl, rfl⟩
  by_cases h : a = ctx.caller <;> simp [Policy.enforce, h, eq_comm]

/-- C4: the child's gas allowance equals `min(remaining_gas, message.max_gas)`
when `max_gas` is given and `remaining_gas` when it is not — in particular a
requested `max_gas` greater than `remaining_gas` is clamped to
`remaining_gas` (`min r m = r` then); and `process_subcall` passes exactly
this allowance to the child dispatch as its gas limit and returns `Ok` (no
rejection) in every case. -/
theorem C4_child_gas_allowance (r m : Nat) (mg : Option Nat)
    (env : Env) (contract : Contract) (cd : Nat) (ctx : Ctx) (method : String)
    (body : CborValue) :
    child_gas_allowance r mg = min r (mg.getD r) ∧
    child_gas_allowance r none = r ∧
    child_gas_allowance r (some m) = min r m ∧
    (process_subcall env contract cd ctx method body mg).1 =
      .ok (env.dispatch ⟨method, body, contract.instance_info.address,
        child_gas_allowance ctx.remaining_gas mg, (cd + 1) % 2 ^ 16,
        ctx.store⟩).result := by
  refine ⟨?_, ?_, ?_, ?_⟩
  · unfold child_gas_allowance
    cases mg <;> simp
    split <;> omega
  · simp [child_gas_allowance]
  · unfold child_gas_allowance
    simp
    split <;> omega
  · rw [process_subcall_spec env contract cd ctx method body mg _ rfl]

/-- C2: commit-or-revert — for every dispatched sub-call message, if the
child's top-level dispatch result is a success then the child's store, its
emitted tags and its emitted runtime messages are committed into the parent
context; if the child's result is a failure none of the three is visible to
the parent. -/
theorem C2_commit_or_revert (env : Env) (contract : Contract) (cd : Nat) (ctx : Ctx)
    (method : String) (body : CborValue) (mg : Option Nat) (d : DispatchOutcome)
    (hd : env.dispatch ⟨method, body, contract.instance_info.address,
      child_gas_allowance ctx.remaining_gas mg, (cd + 1) % 2 ^ 16, ctx.store⟩ = d) :
    ∃ ctx', process_subcall env contract cd ctx method body mg = (.ok d.result, ctx') ∧
      (d.result.is_success = true →
        ctx'.store = d.store ∧ ctx'.tags = ctx.tags ++ d.tags ∧
        ctx'.messages = ctx.messages ++ d.messages) ∧
      (d.result.is_success = false →
        ctx'.store = ctx.store ∧ ctx'.tags = ctx.tags ∧
        ctx'.messages = ctx.messages) := by
  refine ⟨_, process_subcall_spec env contract cd ctx method body mg d hd, ?_, ?_⟩ <;>
    intro hs <;> simp [hs]

/-- C3: after the child dispatch returns, the parent's gas counter has
decreased by exactly the child's computed gas allowance minus the gas
remaining in the child context. -/
theorem C3_parent_gas_charge (env : Env) (contract : Contract) (cd : Nat) (ctx : Ctx)
    (method : String) (body : CborValue) (mg : Option Nat) (d : DispatchOutcome)
    (hd : env.dispatch ⟨method, body, contract.instance_info.address,
      child_gas_allowance ctx.remaining_gas mg, (cd + 1) % 2 ^ 16, ctx.store⟩ = d)
    (hg : d.remaining_gas ≤ child_gas_allowance ctx.remaining_gas mg) :
    (process_subcall env contract cd ctx method body mg).2.remaining_gas =
      ctx.remaining_gas -
        (child_gas_allowance ctx.remaining_gas mg - d.remaining_gas) ∧
    ctx.remaining_gas =
      (process_subcall env contract cd ctx method body mg).2.remaining_gas +
        (child_gas_allowance ctx.remaining_gas mg - d.remaining_gas) := by
  have hle := child_gas_allowance_le ctx.remaining_gas mg
  rw [process_subcall_spec env contract cd ctx method body mg d hd]
  exact ⟨rfl, by simp; omega⟩

/-- C7 (amended): a child failure is not specially recovered — when the
child runs with the full remaining gas as its allowance (`max_gas` absent)
and exhausts it (its remaining gas is 0), the sub-call completes as an
ordinary failure but the parent is charged the entire allowance, leaving the
parent with zero remaining gas, so that every subsequent positive gas charge
in the enclosing transaction fails with the core out-of-gas error. -/
theorem C7_child_out_of_gas_drains_parent (env : Env) (contract : Contract)
    (cd : Nat) (ctx : Ctx) (method : String) (body : CborValue) (d : DispatchOutcome)
    (hd : env.dispatch ⟨method, body, contract.instance_info.address,
      child_gas_allowance ctx.remaining_gas none, (cd + 1) % 2 ^ 16, ctx.store⟩ = d)
    (hzero : d.remaining_gas = 0) :
    (process_subcall env contract cd ctx method body none).1 = .ok d.result ∧
    (process_subcall env contract cd ctx method body none).2.remaining_gas = 0 ∧
    (∀ n, 0 < n →
      (use_tx_gas (process_subcall env contract cd ctx method body none).2 n).1 =
        .error (.Core .OutOfGas)) := by
  rw [process_subcall_spec env contract cd ctx method body none d hd]
  have hfull : child_gas_allowance ctx.remaining_gas none = ctx.remaining_gas := by
    simp [child_gas_allowance]
  refine ⟨rfl, ?_, ?_⟩
  · simp [hfull, hzero]
  · intro n hn
    simp [use_tx_gas, hfull, hzero, hn]

/-- C6: if the emitted message list is non-empty and the per-transaction
depth counter (the `contracts.CallDepth` context value, initially 0) is at
least `max_subcall_depth`, the dispatcher fails with
`CallDepthExceeded(depth+1, max_subcall_depth)` before executing any
message; an `ExecutionOk` with an empty message list passes the check at any
depth (and succeeds unchanged). -/
theorem C6_call_depth_check (env : Env) (params : Parameters) (contract : Contract)
    (fuel : Nat) (ctx : Ctx) (data : List Nat) (msgs : List Message) :
    (msgs ≠ [] → params.max_subcall_depth ≤ ctx.depth → ctx.depth + 1 < 2 ^ 16 →
      process_execution_result env params contract (fuel + 1) ctx ⟨data, msgs⟩ =
        some (.error (.CallDepthExceeded (ctx.depth + 1) params.max_subcall_depth),
          ctx)) ∧
    process_execution_result env params contract (fuel + 1) ctx ⟨data, []⟩ =
      some (.ok data, ctx) := by
  constructor
  · intro h1 h2 h3
    simp only [process_execution_result]
    rw [if_pos ⟨h1, h2⟩, Nat.mod_eq_of_lt h3]
  · simp [process_execution_result, use_tx_gas, saturating_mul_u64,
      process_messages_with]

/-- C10: for a non-empty message list below the depth limit, the
`subcall_dispatch × |messages|` gas charge (u64 saturating multiplication)
is applied before the sub-call count limit is checked: an insufficient gas
balance fails with the core out-of-gas error regardless of the message
count; when the gas charge succeeds and the count exceeds the limit the
`TooManySubcalls` error is returned with the gas already consumed; and a
message count that does not fit in u16 is reported as
`TooManySubcalls(u16::MAX, max_subcall_count)`. -/
theorem C10_gas_charged_before_count_check (env : Env) (params : Parameters)
    (contract : Contract) (fuel : Nat) (ctx : Ctx) (data : List Nat)
    (msgs : List Message) (hne : msgs ≠ [])
    (hdepth : ctx.depth < params.max_subcall_depth) :
    (ctx.remaining_gas <
        saturating_mul_u64 params.gas_costs.subcall_dispatch msgs.length →
      process_execution_result env params contract (fuel + 1) ctx ⟨data, msgs⟩ =
        some (.error (.Core .OutOfGas), ctx)) ∧
    (saturating_mul_u64 params.gas_costs.subcall_dispatch msgs.length ≤
        ctx.remaining_gas → 2 ^ 16 - 1 < msgs.length →
      process_execution_result env params contract (fuel + 1) ctx ⟨data, msgs⟩ =
        some (.error (.TooManySubcalls (2 ^ 16 - 1) params.max_subcall_count),
          { ctx with remaining_gas := ctx.remaining_gas -
            saturating_mul_u64 params.gas_costs.subcall_dispatch msgs.length })) ∧
    (saturating_mul_u64 params.gas_costs.subcall_dispatch msgs.length ≤
        ctx.remaining_gas → msgs.length ≤ 2 ^ 16 - 1 →
      params.max_subcall_count < msgs.length →
      process_execution_result env params contract (fuel + 1) ctx ⟨data, msgs⟩ =
        some (.error (.TooManySubcalls msgs.length params.max_subcall_count),
          { ctx with remaining_gas := ctx.remaining_gas -
            saturating_mul_u64 params.gas_costs.subcall_dispatch msgs.length })) := by
  have hno : ¬(msgs ≠ [] ∧ params.max_subcall_depth ≤ ctx.depth) := by
    rintro ⟨-, h⟩
    omega
  refine ⟨?_, ?_, ?_⟩
  · intro hgas
    simp only [process_execution_result]
    rw [if_neg hno]
    simp [use_tx_gas, hgas]
  · intro hgas hlen
    simp only [process_execution_result]
    rw [if_neg hno]
    simp only [use_tx_gas]
    rw [if_neg (by omega)]
    simp only []
    rw [if_pos (by simpa using hlen)]
  · intro hgas hlen hcount
    simp only [process_execution_result]
    rw [if_neg hno]
    simp only [use_tx_gas]
    rw [if_neg (by omega)]
    simp only []
    rw [if_neg (by simpa using hlen), if_pos (by simpa using hcount)]

/-- C1: when a reply is delivered and its `ExecutionOk` is recursively
processed through the dispatcher, a non-empty reply result replaces the
caller's `result_data` for the rest of the message loop, while an empty one
leaves the previous `result_data` unchanged. -/
theorem C1_reply_overwrites_result_data (env : Env) (params : Parameters)
    (contract : Contract) (fuel cd id : Nat) (reply : NotifyReply)
    (method : String) (body : CborValue) (mg : Option Nat) (rest : List Message)
    (data : List Nat) (ctx : Ctx) (res : TxCallResult) (ctx1 : Ctx)
    (rok : ExecutionOk) (ctx2 : Ctx) (rd : List Nat) (ctx3 : Ctx)
    (hsub : process_subcall env contract cd ctx method body mg = (.ok res, ctx1))
    (hnotify : should_notify reply res.is_success = true)
    (hreply : env.handle_reply ctx1 params contract
      (Reply.Call id (CallResult.ofTx res)) = (.ok rok, ctx2))
    (hrec : process_execution_result env params contract fuel ctx2 rok =
      some (.ok rd, ctx3)) :
    process_messages_with env params contract
        (fun c r => process_execution_result env params contract fuel c r) cd
        (Message.Call id reply method body mg :: rest) data ctx =
      process_messages_with env params contract
        (fun c r => process_execution_result env params contract fuel c r) cd
        rest (if rd.isEmpty then data else rd) ctx3 := by
  simp only [process_messages_with, hsub, hnotify, if_true, deliver_reply,
    hreply, hrec]

/-- C5: a reply is delivered to the emitting contract's `handle_reply` iff
`NotifyReply` is `Always`, or `OnError` with a failed child call, or
`OnSuccess` with a successful one; `Never` never delivers; and the delivered
reply envelope carries the message's `id` together with the child's
`CallResult` (see `deliver_reply`, which invokes `handle_reply` on
`Reply.Call id (CallResult.ofTx result)`). -/
theorem C5_reply_filtering (r : NotifyReply) (s : Bool) (env : Env)
    (params : Parameters) (contract : Contract)
    (pe_rec : Ctx → ExecutionOk → Option (Except Error (List Nat) × Ctx))
    (cd id : Nat) (method : String) (body : CborValue) (mg : Option Nat)
    (rest : List Message) (data : List Nat) (ctx : Ctx) (res : TxCallResult)
    (ctx1 : Ctx)
    (hsub : process_subcall env contract cd ctx method body mg = (.ok res, ctx1)) :
    (should_notify r s = true ↔
      (r = .Always ∨ (r = .OnError ∧ s = false) ∨ (r = .OnSuccess ∧ s = true))) ∧
    should_notify .Never s = false ∧
    process_messages_with env params contract pe_rec cd
        (Message.Call id r method body mg :: rest) data ctx =
      (if should_notify r res.is_success then
        deliver_reply env params contract pe_rec id res
          (fun data' ctx' =>
            process_messages_with env params contract pe_rec cd rest data' ctx')
          data ctx1
      else
        process_messages_with env params contract pe_rec cd rest data ctx1) := by
  refine ⟨?_, ?_, ?_⟩
  · cases r <;> cases s <;> simp [should_notify]
  · cases s <;> rfl
  · simp only [process_messages_with, hsub]

/-- C8: in both `tx_call` and `tx_instantiate`, each attached token amount is
transferred from the caller to the instance address before the guest entry
point runs — the guest is invoked on the post-transfer context — and any
failed transfer aborts the invocation with `InsufficientCallerBalance`, with
a result that is the same for every guest/dispatcher environment (the guest
is never invoked). -/
theorem C8_token_transfers_before_guest (env : Env) (params : Parameters)
    (fuel : Nat) (ctx : Ctx) (bodyC : Call) (bodyI : Instantiate)
    (ctx1 ctxi1 : Ctx) (inst : Instance) (code_info code_infoI : Code)
    (code codeI : List Nat)
    (hchk : (ctx.is_check_only && !ctx.expensive_queries_allowed) = false)
    (hgas : use_tx_gas ctx params.gas_costs.tx_call = (.ok (), ctx1))
    (hinst : load_instance_info ctx1 bodyC.id = .ok inst)
    (hcodei : load_code_info ctx1 inst.code_id = .ok code_info)
    (hcode : load_code ctx1 inst.code_id = .ok code)
    (hgasI : use_tx_gas ctx params.gas_costs.tx_instantiate = (.ok (), ctxi1))
    (hcodeiI : load_code_info ctxi1 bodyI.code_id = .ok code_infoI)
    (hpol : code_infoI.instantiate_policy.enforce ctxi1 = .ok ())
    (hcodeI : load_code ctxi1 bodyI.code_id = .ok codeI) :
    (∀ e ctx2, transfer_tokens ctx.caller inst.address ctx1 bodyC.tokens =
        (.error e, ctx2) →
      e = .InsufficientCallerBalance ∧
      ∀ env', tx_call env' params fuel ctx bodyC =
        some (.error .InsufficientCallerBalance, ctx2)) ∧
    (∀ ctx2, transfer_tokens ctx.caller inst.address ctx1 bodyC.tokens =
        (.ok (), ctx2) →
      tx_call env params fuel ctx bodyC =
        call_guest env params fuel ⟨code_info, code, inst⟩ bodyC ctx2) ∧
    (∀ e ctx2,
      transfer_tokens ctx.caller
          (Instance.address ⟨ctxi1.next_instance_id, bodyI.code_id, ctx.caller,
            bodyI.upgrades_policy⟩)
          (store_instance_info
            { ctxi1 with next_instance_id := (ctxi1.next_instance_id + 1) % 2 ^ 64 }
            ⟨ctxi1.next_instance_id, bodyI.code_id, ctx.caller, bodyI.upgrades_policy⟩)
          bodyI.tokens = (.error e, ctx2) →
      e = .InsufficientCallerBalance ∧
      ∀ env', tx_instantiate env' params fuel ctx bodyI =
        some (.error .InsufficientCallerBalance, ctx2)) ∧
    (∀ ctx2,
      transfer_tokens ctx.caller
          (Instance.address ⟨ctxi1.next_instance_id, bodyI.code_id, ctx.caller,
            bodyI.upgrades_policy⟩)
          (store_instance_info
            { ctxi1 with next_instance_id := (ctxi1.next_instance_id + 1) % 2 ^ 64 }
            ⟨ctxi1.next_instance_id, bodyI.code_id, ctx.caller, bodyI.upgrades_policy⟩)
          bodyI.tokens = (.ok (), ctx2) →
      tx_instantiate env params fuel ctx bodyI =
        instantiate_guest env params fuel
          ⟨code_infoI, codeI,
            ⟨ctxi1.next_instance_id, bodyI.code_id, ctx.caller, bodyI.upgrades_policy⟩⟩
          bodyI ctx2) := by
  have hflag1 : ctx1.is_check_only = ctx.is_check_only ∧
      ctx1.expensive_queries_allowed = ctx.expensive_queries_allowed := by
    unfold use_tx_gas at hgas
    split at hgas
    · exact absurd hgas (by simp)
    · simp only [Prod.mk.injEq] at hgas
      exact ⟨by rw [← hgas.2], by rw [← hgas.2]⟩
  have hflagI : ctxi1.is_check_only = ctx.is_check_only ∧
      ctxi1.expensive_queries_allowed = ctx.expensive_queries_allowed := by
    unfold use_tx_gas at hgasI
    split at hgasI
    · exact absurd hgasI (by simp)
    · simp only [Prod.mk.injEq] at hgasI
      exact ⟨by rw [← hgasI.2], by rw [← hgasI.2]⟩
  have herr : ∀ (src dst : Address) (ts : List BaseUnits) (c c' : Ctx) (e : Error),
      transfer_tokens src dst c ts = (.error e, c') →
      e = .InsufficientCallerBalance := by
    intro src dst ts
    induction ts with
    | nil => intro c c' e h; simp [transfer_tokens] at h
    | cons t rest ih =>
      intro c c' e h
      simp only [transfer_tokens] at h
      cases htr : Accounts.transfer c src dst t with
      | error u =>
        simp only [htr, Prod.mk.injEq, Except.error.injEq] at h
        exact h.1.symm
      | ok c2 =>
        simp only [htr] at h
        exact ih c2 c' e h
  have hchk1 : (ctx1.is_check_only && !ctx1.expensive_queries_allowed) = false := by
    rw [hflag1.1, hflag1.2]
    exact hchk
  have hchkI : (ctxi1.is_check_only && !ctxi1.expensive_queries_allowed) = false := by
    rw [hflagI.1, hflagI.2]
    exact hchk
  refine ⟨?_, ?_, ?_, ?_⟩
  · intro e ctx2 htr
    have he := herr _ _ _ _ _ _ htr
    subst he
    refine ⟨rfl, ?_⟩
    intro env'
    simp only [tx_call, hgas, hchk1, hinst, hcodei, hcode, htr]
    simp
  · intro ctx2 htr
    simp only [tx_call, hgas, hchk1, hinst, hcodei, hcode, htr]
    simp
  · intro e ctx2 htr
    have he := herr _ _ _ _ _ _ htr
    subst he
    refine ⟨rfl, ?_⟩
    intro env'
    simp only [tx_instantiate, hgasI, hchkI, hcodeiI, hpol, hcodeI, htr]
    simp
  · intro ctx2 htr
    simp only [tx_instantiate, hgasI, hchkI, hcodeiI, hpol, hcodeI, htr]
    simp

/-! ## Concrete evaluation scenarios -/

/-- A sample caller address. -/
def addrW : Address := ⟨"user", [1]⟩

/-- A sample stored code. -/
def codeW : Code := ⟨3, [171], .OasisV1, .Everyone⟩

/-- A sample contract instance using `codeW`. -/
def instW : Instance := ⟨7, 3, addrW, .Everyone⟩

/-- A sample contract (code plus instance). -/
def contractW : Contract := ⟨codeW, [0, 1], instW⟩

/-- Sample parameters: depth limit 8, count limit 16, `subcall_dispatch`
cost 100. -/
def paramsW : Parameters :=
  ⟨262144, 61440, 20, 8, 16, 1024, ⟨0, 0, 10, 10, 0, 100, 10, 10, 10⟩⟩

/-- A sample transaction context: 1000 gas, depth 0, one instance and one
code stored, sparse balances. -/
def ctxW : Ctx :=
  { remaining_gas := 1000
    depth := 0
    store := []
    tags := []
    messages := []
    caller := addrW
    is_check_only := false
    expensive_queries_allowed := false
    balances := [(addrW, "TEST", 3)]
    instances := [(7, instW)]
    codes := [(3, codeW)]
    code_store := [(3, [0, 1])]
    next_instance_id := 9 }

/-- A sample successful child dispatch outcome: 4 gas left, one store entry,
one tag, one runtime message. -/
def dW : DispatchOutcome := ⟨.Ok (.mk 5), 4, [([2], [3])], [⟨[9], [9]⟩], [⟨1, 2⟩]⟩

/-- A sample environment: every child dispatch returns `dW`; `handle_reply`
returns data `[7]` with no messages; the guest entry points return fixed
results. -/
def envW : Env :=
  { dispatch := fun _ => dW
    handle_reply := fun ctx _ _ _ => (.ok ⟨[7], []⟩, ctx)
    wasm_call := fun ctx _ _ _ => (.ok ⟨[4], []⟩, ctx)
    wasm_instantiate := fun ctx _ _ _ => (.ok ⟨[], []⟩, ctx) }

/-- `ctxW` after `process_subcall` of a successful child with allowance 10
and 4 gas left: committed store, 6 gas charged, tag and message forwarded. -/
def ctx1W : Ctx :=
  { ctxW with
      store := [([2], [3])]
      remaining_gas := 994
      tags := [⟨[9], [9]⟩]
      messages := [⟨1, 2⟩] }

/-- A sample emitted message: id 11, notify `Always`, `max_gas` 10. -/
def msgW : Message := .Call 11 .Always "m" (.mk 0) (some 10)

/-- An environment whose child dispatch always fails with the core
out-of-gas error (module `core`, code 12) having consumed all child gas. -/
def envOOG : Env :=
  { dispatch := fun _ => ⟨.Failed "core" 12 "core: out of gas", 0, [], [], []⟩
    handle_reply := fun ctx _ _ _ => (.ok ⟨[7], []⟩, ctx)
    wasm_call := fun ctx _ _ _ => (.ok ⟨[4], []⟩, ctx)
    wasm_instantiate := fun ctx _ _ _ => (.ok ⟨[], []⟩, ctx) }

/-! ## Witnesses and counterexamples -/

/-- Witness for C1 at concrete inputs: the reply's recursively processed
data `[7]` is non-empty and overwrites the caller's `result_data` `[1]`. -/
theorem C1_witness :
    process_messages_with envW paramsW contractW
        (fun c r => process_execution_result envW paramsW contractW 1 c r) 0
        (Message.Call 11 .Always "m" (.mk 0) (some 10) :: []) [1] ctxW =
      process_messages_with envW paramsW contractW
        (fun c r => process_execution_result envW paramsW contractW 1 c r) 0
        [] (if List.isEmpty [7] then [1] else [7]) ctx1W :=
  C1_reply_overwrites_result_data envW paramsW contractW 1 0 11 .Always "m"
    (.mk 0) (some 10) [] [1] ctxW (.Ok (.mk 5)) ctx1W ⟨[7], []⟩ ctx1W [7] ctx1W
    rfl rfl rfl rfl

/-- Witness for C2 at concrete inputs: a successful child commits `dW`'s
store, tags and messages into the parent. -/
theorem C2_witness :
    ∃ ctx', process_subcall envW contractW 0 ctxW "m" (.mk 0) (some 10) =
        (.ok dW.result, ctx') ∧
      (dW.result.is_success = true →
        ctx'.store = dW.store ∧ ctx'.tags = ctxW.tags ++ dW.tags ∧
        ctx'.messages = ctxW.messages ++ dW.messages) ∧
      (dW.result.is_success = false →
        ctx'.store = ctxW.store ∧ ctx'.tags = ctxW.tags ∧
        ctx'.messages = ctxW.messages) :=
  C2_commit_or_revert envW contractW 0 ctxW "m" (.mk 0) (some 10) dW rfl

/-- Witness for C3 at concrete inputs: with allowance 10 and 4 gas left in
the child, the parent's counter drops from 1000 to 994. -/
theorem C3_witness :
    (process_subcall envW contractW 0 ctxW "m" (.mk 0) (some 10)).2.remaining_gas =
      ctxW.remaining_gas -
        (child_gas_allowance ctxW.remaining_gas (some 10) - dW.remaining_gas) ∧
    ctxW.remaining_gas =
      (process_subcall envW contractW 0 ctxW "m" (.mk 0) (some 10)).2.remaining_gas +
        (child_gas_allowance ctxW.remaining_gas (some 10) - dW.remaining_gas) :=
  C3_parent_gas_charge envW contractW 0 ctxW "m" (.mk 0) (some 10) dW rfl
    (by decide)

/-- Witness for C5 at concrete inputs (`Never`, failed child): the filter
characterization holds and the loop skips reply delivery. -/
theorem C5_witness :
    (should_notify .Never false = true ↔
      (NotifyReply.Never = .Always ∨
        (NotifyReply.Never = .OnError ∧ false = false) ∨
        (NotifyReply.Never = .OnSuccess ∧ false = true))) ∧
    should_notify .Never false = false ∧
    process_messages_with envW paramsW contractW (fun _ _ => none) 0
        (Message.Call 11 .Never "m" (.mk 0) (some 10) :: []) [1] ctxW =
      (if should_notify .Never (TxCallResult.Ok (.mk 5)).is_success then
        deliver_reply envW paramsW contractW (fun _ _ => none) 11 (.Ok (.mk 5))
          (fun data' ctx' =>
            process_messages_with envW paramsW contractW (fun _ _ => none) 0 []
              data' ctx')
          [1] ctx1W
      else
        process_messages_with envW paramsW contractW (fun _ _ => none) 0 [] [1]
          ctx1W) :=
  C5_reply_filtering .Never false envW paramsW contractW (fun _ _ => none) 0 11
    "m" (.mk 0) (some 10) [] [1] ctxW (.Ok (.mk 5)) ctx1W rfl

/-- Witness for C6 at concrete inputs: at depth 8 with limit 8 a non-empty
message list fails with `CallDepthExceeded(9, 8)`, while an empty one
succeeds at the same depth. -/
theorem C6_witness :
    process_execution_result envW paramsW contractW 1 { ctxW with depth := 8 }
        ⟨[1], [msgW]⟩ =
      some (.error (.CallDepthExceeded 9 8), { ctxW with depth := 8 }) ∧
    process_execution_result envW paramsW contractW 1 { ctxW with depth := 8 }
        ⟨[1], []⟩ =
      some (.ok [1], { ctxW with depth := 8 }) :=
  ⟨by
    have h := (C6_call_depth_check envW paramsW contractW 0 { ctxW with depth := 8 }
      [1] [msgW]).1 (by decide) (by decide) (by decide)
    simpa using h,
   (C6_call_depth_check envW paramsW contractW 0 { ctxW with depth := 8 } [1] []).2⟩

/-- Witness for C7 (amended) at concrete inputs: a child that exhausts the
full allowance leaves the parent with zero gas and a subsequent charge of 5
gas fails with the core out-of-gas error. -/
theorem C7_witness :
    (process_subcall envOOG contractW 0 ctxW "m" (.mk 0) none).1 =
      .ok (TxCallResult.Failed "core" 12 "core: out of gas") ∧
    (process_subcall envOOG contractW 0 ctxW "m" (.mk 0) none).2.remaining_gas = 0 ∧
    (use_tx_gas (process_subcall envOOG contractW 0 ctxW "m" (.mk 0) none).2 5).1 =
      .error (.Core .OutOfGas) := by
  have h := C7_child_out_of_gas_drains_parent envOOG contractW 0 ctxW "m" (.mk 0)
    ⟨.Failed "core" 12 "core: out of gas", 0, [], [], []⟩ rfl rfl
  exact ⟨h.1, h.2.1, h.2.2 5 (by decide)⟩

/-- Counterexample for C7 as stated: a sub-call whose child dispatch fails
with the core out-of-gas error (module `core`, code 12) under an explicit
`max_gas` of 10 does NOT abort the enclosing transaction — the dispatcher
continues, delivers the failure to `handle_reply` (notify `Always`), and the
whole processing succeeds with the reply's data `[7]` overwriting the
original `[1]`; only 110 of the parent's 1000 gas are consumed. -/
theorem C7_counterexample :
    process_execution_result envOOG paramsW contractW 2 ctxW
        ⟨[1], [Message.Call 42 .Always "m" (.mk 0) (some 10)]⟩ =
      some (.ok [7], { ctxW with remaining_gas := 890 }) ∧
    (envOOG.dispatch ⟨"m", .mk 0, contractW.instance_info.address, 10, 1,
        ctxW.store⟩).result = .Failed "core" 12 "core: out of gas" ∧
    (TxCallResult.Failed "core" 12 "core: out of gas").is_success = false := by
  refine ⟨?_, rfl, rfl⟩
  rfl

/-- Witness for C8 at concrete inputs: the caller holds 3 TEST but attaches
5, so the transfer fails and `tx_call` aborts with
`InsufficientCallerBalance` before any guest invocation. -/
theorem C8_witness :
    transfer_tokens ctxW.caller instW.address
        { ctxW with remaining_gas := 990 } [⟨5, "TEST"⟩] =
      (.error .InsufficientCallerBalance, { ctxW with remaining_gas := 990 }) ∧
    tx_call envW paramsW 1 ctxW ⟨7, [1], [⟨5, "TEST"⟩]⟩ =
      some (.error .InsufficientCallerBalance, { ctxW with remaining_gas := 990 }) := by
  refine ⟨rfl, ?_⟩
  exact ((C8_token_transfers_before_guest envW paramsW 1 ctxW ⟨7, [1], [⟨5, "TEST"⟩]⟩
    ⟨3, .Everyone, [], []⟩ { ctxW with remaining_gas := 990 }
    { ctxW with remaining_gas := 990 } instW codeW codeW [0, 1] [0, 1]
    rfl rfl rfl rfl rfl rfl rfl rfl rfl).1 .InsufficientCallerBalance
    { ctxW with remaining_gas := 990 } rfl).2 envW

/-- `paramsW` with the sub-call count limit lowered to 1. -/
def paramsC10 : Parameters := { paramsW with max_subcall_count := 1 }

/-- Witness for C10 at concrete inputs: 2 messages against a count limit of
1 with `subcall_dispatch` 100 — the 200 gas are consumed and then
`TooManySubcalls(2, 1)` is returned. -/
theorem C10_witness :
    process_execution_result envW paramsC10 contractW 1 ctxW
        ⟨[1], [msgW, msgW]⟩ =
      some (.error (.TooManySubcalls [msgW, msgW].length
          paramsC10.max_subcall_count),
        { ctxW with remaining_gas := ctxW.remaining_gas -
          saturating_mul_u64 paramsC10.gas_costs.subcall_dispatch [msgW, msgW].length }) :=
  (C10_gas_charged_before_count_check envW paramsC10
    contractW 0 ctxW [1] [msgW, msgW] (by decide) (by decide)).2.2
    (by decide) (by decide) (by decide)

end Contracts
